import Mathlib

/-!
Verification development for the GPRS/PPP modem bring-up and link-supervision
core of the IOT_Projects repository.  The Python sources
`GPRS_Internet_1.py` and `GPRS_Internet_Service_1.py` are shallowly embedded:
pure string processing becomes functions over `List Char` / `List Nat`
(codepoints), serial traffic and subprocess output become explicit
environments (oracles indexed by command number or elapsed seconds), wall
clock sleeps become explicit time counters, and Python exceptions become
`Except`.  While-loops bounded by a wall-clock deadline are embedded with a
structural fuel parameter that over-approximates the iteration count (the
fuel branch is unreachable for the deadlines used by the sources).
-/

namespace IOTGprs

/-! ## Generic substring machinery

Python's `tok in s` test, used pervasively by the sources, is embedded as
`hasTok` / `strHas`: does the token occur as a contiguous infix?
-/

/-- Does the token match at the head of the list? -/
def tokAt {α : Type} [BEq α] : List α → List α → Bool
  | [], _ => true
  | _ :: _, [] => false
  | t :: ts, x :: xs => t == x && tokAt ts xs

/-- Does the token occur contiguously anywhere in the list?  (Python `tok in s`.) -/
def hasTok {α : Type} [BEq α] (tok : List α) : List α → Bool
  | [] => tok.isEmpty
  | x :: xs => tokAt tok (x :: xs) || hasTok tok xs

/-- Python substring test `tok in s` on strings. -/
def strHas (s tok : String) : Bool := hasTok tok.data s.data

/-! ## Signal-quality classification
(`GPRS_Internet_Service_1.py`, `get_signal_strength_at_init`, lines 39-60.)

The Python function returns a triple `(rssi-or-None, quality, icon)`.
-/

/-- The `+CSQ:` marker searched for in the modem response. -/
def csqTag : String := "+CSQ:"

/-- Quality string of line 49. -/
def noSignalStr : String := "No Signal"

/-- Quality string of line 51. -/
def poorStr : String := "Poor"

/-- Quality string of line 53. -/
def fairStr : String := "Fair"

/-- Quality string of line 55. -/
def goodStr : String := "Good"

/-- Quality string of line 57. -/
def excellentStr : String := "Excellent"

/-- Quality string of line 58 (no `+CSQ:` in the response). -/
def unknownStr : String := "Unknown"

/-- Icon of line 49. -/
def iconX : String := "❌"

/-- Icon of line 51. -/
def iconWarn : String := "⚠️"

/-- Icon of line 53. -/
def iconGear : String := "⚙️"

/-- Icon of line 55. -/
def iconCheck : String := "✓"

/-- Icon of line 57. -/
def iconCheck2 : String := "✓✓"

/-- Icon of lines 58 and 60. -/
def iconQ : String := "?"

/-- Prefix of the quality string built on line 60 (`f"Error: {e}"`). -/
def errorPre : String := "Error: "

/-- The classification if-chain of lines 48-57: the returned triple as a
function of the parsed integer `rssi`. -/
def classifySignal (rssi : Int) : Option Int × String × String :=
  if rssi = 99 then (some rssi, noSignalStr, iconX)
  else if rssi < 10 then (some rssi, poorStr, iconWarn)
  else if rssi < 15 then (some rssi, fairStr, iconGear)
  else if rssi < 20 then (some rssi, goodStr, iconCheck)
  else (some rssi, excellentStr, iconCheck2)

/-! ### Parsing `response.split("+CSQ:")[1].split(",")[0].strip()` and `int(...)` -/

/-- ASCII whitespace recognised by Python `str.strip()` (restricted to the
characters that can occur in modem responses). -/
def isWsChar (c : Char) : Bool :=
  c == ' ' || c == '\t' || c == '\n' || c == '\r'

/-- `str.strip()` on a character list. -/
def stripChars (cs : List Char) : List Char :=
  ((cs.dropWhile isWsChar).reverse.dropWhile isWsChar).reverse

/-- Python `s.split(sep)` for a non-empty separator, on character lists.
`fuel` bounds the scan; it is instantiated with the list length, which
suffices because every step consumes at least one character. -/
def splitTokAux (sep : List Char) : Nat → List Char → List Char → List (List Char)
  | _, [], cur => [cur.reverse]
  | 0, xs, cur => [cur.reverse ++ xs]
  | fuel + 1, x :: xs, cur =>
    if sep.isEmpty = false && tokAt sep (x :: xs) then
      cur.reverse :: splitTokAux sep fuel (List.drop sep.length (x :: xs)) []
    else
      splitTokAux sep fuel xs (x :: cur)

/-- Python `s.split(sep)` (non-empty separator). -/
def splitTok (sep : List Char) (xs : List Char) : List (List Char) :=
  splitTokAux sep xs.length xs []

/-- Digit value of an ASCII digit. -/
def digitVal (c : Char) : Option Nat :=
  if '0' ≤ c && c ≤ '9' then some (c.toNat - 48) else none

/-- Parse a non-empty all-digit run. -/
def parseDigits : List Char → Option Nat
  | [] => none
  | cs => cs.foldl (fun acc c =>
      match acc, digitVal c with
      | some n, some d => some (n * 10 + d)
      | _, _ => none) (some 0)

/-- Python `int(s)` on an already-stripped string: optional sign followed by
at least one digit; `none` models the `ValueError` that the enclosing
`try` turns into the error tuple. -/
def parseIntPy (cs : List Char) : Option Int :=
  match cs with
  | [] => none
  | c :: rest =>
    if c == '-' then (parseDigits rest).map (fun n => -(n : Int))
    else if c == '+' then (parseDigits rest).map (fun n => (n : Int))
    else (parseDigits (c :: rest)).map (fun n => (n : Int))

/-- Line 47: `int(response.split("+CSQ:")[1].split(",")[0].strip())`.
`none` models any exception along the way (index error cannot occur when
the tag is present; `int` failure can). -/
def parseCsq (response : String) : Option Int :=
  match (splitTok csqTag.data response.data)[1]? with
  | none => none
  | some seg => parseIntPy (stripChars (seg.takeWhile (fun c => c ≠ ',')))

/-- Environment of one `get_signal_strength_at_init` call: whether the serial
open succeeds (with the exception text when it does not) and the raw
response returned by `send_at_command(ser, "AT+CSQ")`. -/
structure SigEnv where
  openOk : Bool
  errMsg : String
  response : String

/-- The error tuple built on line 60 (`return None, f"Error: {e}", "?"`). -/
def sigError (msg : String) : Option Int × String × String :=
  (none, String.append errorPre msg, iconQ)

/-- Exception message standing for the `ValueError` raised by `int(...)` on
an unparsable quality field. -/
def intErrMsg : String := "invalid literal for int"

/-- `get_signal_strength_at_init` (`GPRS_Internet_Service_1.py` lines 39-60):
open the port and query `AT+CSQ`; if the response carries `+CSQ:`, parse and
classify the quality; an absent tag yields the Unknown tuple; any exception
(port open failure, unparsable integer) yields the error tuple. -/
def get_signal_strength_at_init (env : SigEnv) : Option Int × String × String :=
  if env.openOk = false then sigError env.errMsg
  else if strHas env.response csqTag then
    match parseCsq env.response with
    | some rssi => classifySignal rssi
    | none => sigError intErrMsg
  else (none, unknownStr, iconQ)

/-! ## Network-registration and GPRS-attach polling

`GPRS_Internet_1.py` lines 90-112 poll `AT+CREG?` every 2 seconds while the
elapsed time is below `max_wait`; `GPRS_Internet_Service_1.py` lines 198-212
run the same loop but sleep 5 seconds between polls.  Both are embedded as
functions of a response oracle indexed by the elapsed time at which the poll
happens; the result is the success flag together with the elapsed time at
loop exit.  The structural `fuel` over-approximates the iteration count and
is instantiated with `maxWait`, which is never exhausted since each
iteration advances time by at least 2.
-/

/-- Registered-on-home-network response marker. -/
def cregHome : String := "+CREG: 0,1"

/-- Registered-roaming response marker. -/
def cregRoam : String := "+CREG: 0,5"

/-- Line 98 / line 203: is the response a registered status? -/
def isRegisteredResp (r : String) : Bool := strHas r cregHome || strHas r cregRoam

/-- Attached response marker (`+CGATT: 1`). -/
def cgattAttached : String := "+CGATT: 1"

/-- Line 125 / line 229: does the response confirm GPRS attachment? -/
def isAttachedResp (r : String) : Bool := strHas r cgattAttached

/-- Registration-wait loop of `GPRS_Internet_1.py` lines 93-107: poll at
elapsed time `t`; a registered response breaks immediately; otherwise sleep
2 seconds and re-test the `while` guard `time - start < max_wait`. -/
def regWaitAux (resp : Nat → String) (maxWait : Nat) : Nat → Nat → Bool × Nat
  | 0, t => (false, t)
  | fuel + 1, t =>
    if t < maxWait then
      if isRegisteredResp (resp t) then (true, t)
      else regWaitAux resp maxWait fuel (t + 2)
    else (false, t)

/-- Registration wait of `GPRS_Internet_1.py` started at elapsed time 0. -/
def regWait (maxWait : Nat) (resp : Nat → String) : Bool × Nat :=
  regWaitAux resp maxWait maxWait 0

/-- Registration-wait loop of `GPRS_Internet_Service_1.py` lines 200-208:
identical shape but `time.sleep(5)` between polls. -/
def svcRegWaitAux (resp : Nat → String) (maxWait : Nat) : Nat → Nat → Bool × Nat
  | 0, t => (false, t)
  | fuel + 1, t =>
    if t < maxWait then
      if isRegisteredResp (resp t) then (true, t)
      else svcRegWaitAux resp maxWait fuel (t + 5)
    else (false, t)

/-- Registration wait of the service variant started at elapsed time 0. -/
def svcRegWait (maxWait : Nat) (resp : Nat → String) : Bool × Nat :=
  svcRegWaitAux resp maxWait maxWait 0

/-- Attach-confirm loop body (`GPRS_Internet_1.py` lines 121-131 and
`GPRS_Internet_Service_1.py` lines 227-233, identical behaviour): up to `n`
polls of `AT+CGATT?`; an attached response breaks immediately; otherwise
sleep 2 seconds.  The oracle is indexed by elapsed time within the loop;
the result carries the elapsed time at exit. -/
def attachLoop (resp : Nat → String) : Nat → Nat → Bool × Nat
  | 0, t => (false, t)
  | n + 1, t =>
    if isAttachedResp (resp t) then (true, t)
    else attachLoop resp n (t + 2)

/-- The attach-confirm step: `for i in range(10)` starting at elapsed time 0. -/
def attachConfirm (resp : Nat → String) : Bool × Nat :=
  attachLoop resp 10 0

/-! ## PPP negotiation output classification

`GPRS_Internet_1.py` lines 217-254: the supervising thread repeatedly takes
one item from the reader queue with a 0.5 s timeout, inside a 90-second
wall-clock deadline.  One loop iteration observes either a line or an empty
queue (in which case the process's exit status is consulted).  The deadline
is embedded as iteration fuel.
-/

/-- One observation of the monitoring loop: a dequeued output line, or a
`queue.Empty` timeout together with whether `process.poll()` reports exit. -/
inductive PppEvent : Type
  | line (s : String)
  | emptyPoll (exited : Bool)
deriving DecidableEq, Repr

/-- Link-establishment marker of line 227. -/
def connectTok : String := "Connect: ppp0"

/-- IP-assignment markers of line 231. -/
def localIpTok : String := "local  IP address"

/-- Second IP-assignment marker of line 231. -/
def remoteIpTok : String := "remote IP address"

/-- LCP failure markers of line 236. -/
def lcpTimeoutTok : String := "LCP: timeout"

/-- Second LCP failure marker of line 236. -/
def lcpTerminatedTok : String := "LCP terminated"

/-- Connect-script failure marker of line 240. -/
def scriptFailTok : String := "Connect script failed"

/-- Does the line establish the link (line 227)? -/
def isConnectLine (s : String) : Bool := strHas s connectTok

/-- Does the line assign an IP address (line 231)? -/
def isIpLine (s : String) : Bool := strHas s localIpTok || strHas s remoteIpTok

/-- Does the line report LCP failure (line 236)? -/
def isLcpFailLine (s : String) : Bool := strHas s lcpTimeoutTok || strHas s lcpTerminatedTok

/-- Does the line report connect-script failure (line 240)? -/
def isScriptFailLine (s : String) : Bool := strHas s scriptFailTok

/-- The monitoring loop of lines 222-248, returning the final
`(connected, ip_assigned)` flags together with the list of events actually
consumed.  Branch order follows the source: the connect test updates the
flag without breaking; the IP test breaks (successfully) before the LCP and
script-failure tests are reached; an empty poll breaks only if the process
has exited; exhausted fuel is the 90-second deadline. -/
def pppMonitorLoop : Nat → List PppEvent → Bool → Bool → (Bool × Bool) × List PppEvent
  | 0, _, c, ip => ((c, ip), [])
  | _ + 1, [], c, ip => ((c, ip), [])
  | fuel + 1, PppEvent.line s :: rest, c, ip =>
    let c' := c || isConnectLine s
    if isIpLine s then ((c', true), [PppEvent.line s])
    else if isLcpFailLine s then ((c', ip), [PppEvent.line s])
    else if isScriptFailLine s then ((c', ip), [PppEvent.line s])
    else
      let r := pppMonitorLoop fuel rest c' ip
      (r.1, PppEvent.line s :: r.2)
  | fuel + 1, PppEvent.emptyPoll exited :: rest, c, ip =>
    if exited then ((c, ip), [PppEvent.emptyPoll exited])
    else
      let r := pppMonitorLoop fuel rest c ip
      (r.1, PppEvent.emptyPoll exited :: r.2)

/-- Line 250: the attempt succeeds only when both flags are set at loop exit. -/
def pppOutcome (fuel : Nat) (events : List PppEvent) : Bool :=
  let r := pppMonitorLoop fuel events false false
  r.1.1 && r.1.2

/-- Does the event carry a link-establishment line? -/
def evConnect : PppEvent → Bool
  | PppEvent.line s => isConnectLine s
  | PppEvent.emptyPoll _ => false

/-- Does the event carry an IP-assignment line? -/
def evIp : PppEvent → Bool
  | PppEvent.line s => isIpLine s
  | PppEvent.emptyPoll _ => false

/-! ## The AT channel (`send_at_command`)

`GPRS_Internet_1.py` lines 31-49 (identical in `GPRS_Internet_Service_1.py`
lines 22-37): write `f"{command}\r\n"`, then loop while the elapsed time is
below the timeout; whenever bytes are waiting, read them, decode with
`.decode('utf-8', errors='ignore')`, append to the response, and break once
`'OK' in response or 'ERROR' in response`; finally return `response.strip()`.

Bytes and decoded text are embedded as `List Nat` (byte values and Unicode
codepoints); the serial input is an oracle giving the chunk available at
each 0.1-second poll tick; the timeout is the tick fuel.
-/

/-- Is the byte a UTF-8 continuation byte (0x80-0xBF)? -/
def contOk (b : Nat) : Bool := 128 ≤ b && b ≤ 191

/-- Admissible second byte after a three-byte lead, following the UTF-8
validity ranges Python's codec enforces (E0 excludes overlongs, ED excludes
surrogates). -/
def cont3Ok (lead c : Nat) : Bool :=
  if lead = 224 then 160 ≤ c && c ≤ 191
  else if lead = 237 then 128 ≤ c && c ≤ 159
  else contOk c

/-- Admissible second byte after a four-byte lead (F0 excludes overlongs,
F4 caps at U+10FFFF). -/
def cont4Ok (lead c : Nat) : Bool :=
  if lead = 240 then 144 ≤ c && c ≤ 191
  else if lead = 244 then 128 ≤ c && c ≤ 143
  else contOk c

/-- Decode one UTF-8 sequence whose lead byte is `b` and whose following
bytes are `rest`: `some codepoint` plus the remaining bytes, or `none` for
an invalid maximal subpart (the lead together with the valid continuation
bytes seen so far is consumed, as Python's codec does). -/
def decode1 (b : Nat) (rest : List Nat) : Option Nat × List Nat :=
  if b ≤ 127 then (some b, rest)
  else if 194 ≤ b && b ≤ 223 then
    match rest with
    | [] => (none, [])
    | c1 :: r1 =>
      if contOk c1 then (some ((b - 192) * 64 + (c1 - 128)), r1) else (none, rest)
  else if 224 ≤ b && b ≤ 239 then
    match rest with
    | [] => (none, [])
    | c1 :: r1 =>
      if cont3Ok b c1 then
        match r1 with
        | [] => (none, [])
        | c2 :: r2 =>
          if contOk c2 then
            (some ((b - 224) * 4096 + (c1 - 128) * 64 + (c2 - 128)), r2)
          else (none, r1)
      else (none, rest)
  else if 240 ≤ b && b ≤ 244 then
    match rest with
    | [] => (none, [])
    | c1 :: r1 =>
      if cont4Ok b c1 then
        match r1 with
        | [] => (none, [])
        | c2 :: r2 =>
          if contOk c2 then
            match r2 with
            | [] => (none, [])
            | c3 :: r3 =>
              if contOk c3 then
                (some ((b - 240) * 262144 + (c1 - 128) * 4096 + (c2 - 128) * 64 + (c3 - 128)), r3)
              else (none, r2)
          else (none, r1)
      else (none, rest)
  else (none, rest)

/-- The replacement character U+FFFD emitted by `errors='replace'`. -/
def replacementCp : Nat := 65533

/-- UTF-8 decoding of a byte list into codepoints.  `repl = false` embeds
`errors='ignore'` (invalid subparts dropped); `repl = true` embeds
`errors='replace'` (one U+FFFD per invalid subpart).  The fuel is the input
length; every step consumes at least one byte. -/
def utf8DecodeAux (repl : Bool) : Nat → List Nat → List Nat
  | _, [] => []
  | 0, _ => []
  | fuel + 1, b :: rest =>
    match decode1 b rest with
    | (some cp, rest') => cp :: utf8DecodeAux repl fuel rest'
    | (none, rest') =>
      if repl then replacementCp :: utf8DecodeAux repl fuel rest'
      else utf8DecodeAux repl fuel rest'

/-- UTF-8 decode of a whole chunk. -/
def utf8Decode (repl : Bool) (bs : List Nat) : List Nat :=
  utf8DecodeAux repl bs.length bs

/-- Codepoints of the token `OK`. -/
def okTok : List Nat := [79, 75]

/-- Codepoints of the token `ERROR`. -/
def errTok : List Nat := [69, 82, 82, 79, 82]

/-- Line 45: `'OK' in response or 'ERROR' in response`. -/
def hasRespTok (r : List Nat) : Bool := hasTok okTok r || hasTok errTok r

/-- Whitespace codepoints removed by `str.strip()`. -/
def isWsCp (n : Nat) : Bool := n == 32 || n == 9 || n == 10 || n == 13

/-- `response.strip()` on codepoints. -/
def stripCp (xs : List Nat) : List Nat :=
  ((xs.dropWhile isWsCp).reverse.dropWhile isWsCp).reverse

/-- The carriage-return/line-feed terminator appended to every command. -/
def crlf : List Nat := [13, 10]

/-- The accumulation loop of lines 39-47: at tick `i`, if the oracle has a
chunk waiting, decode it with `errors='ignore'`, append, and break when the
buffer contains `OK` or `ERROR`; otherwise sleep one tick.  Fuel is the
number of 0.1-second ticks in the timeout. -/
def sendATLoop (sched : Nat → List Nat) : Nat → Nat → List Nat → List Nat
  | 0, _, resp => resp
  | fuel + 1, i, resp =>
    if (sched i).isEmpty then sendATLoop sched fuel (i + 1) resp
    else
      if hasRespTok (resp ++ utf8Decode false (sched i)) then
        resp ++ utf8Decode false (sched i)
      else sendATLoop sched fuel (i + 1) (resp ++ utf8Decode false (sched i))

/-- `send_at_command`: the pair of (bytes written to the port, returned
response text).  The command is written exactly once, terminated by CRLF;
the response is the stripped accumulation. -/
def send_at_command (cmd : List Nat) (sched : Nat → List Nat) (fuel : Nat) :
    List Nat × List Nat :=
  (cmd ++ crlf, stripCp (sendATLoop sched fuel 0 []))

/-- Modelled from the spec: the same channel but decoding with
`errors='replace'` as §4.1 of the spec asserts ("replace invalid sequences
rather than fail"), for comparison against the source's `errors='ignore'`. -/
def sendATLoopReplaceSpec (sched : Nat → List Nat) : Nat → Nat → List Nat → List Nat
  | 0, _, resp => resp
  | fuel + 1, i, resp =>
    if (sched i).isEmpty then sendATLoopReplaceSpec sched fuel (i + 1) resp
    else
      if hasRespTok (resp ++ utf8Decode true (sched i)) then
        resp ++ utf8Decode true (sched i)
      else sendATLoopReplaceSpec sched fuel (i + 1) (resp ++ utf8Decode true (sched i))

/-- Modelled from the spec: `send_at_command` with replace-mode decoding. -/
def sendAtCommandReplaceSpec (cmd : List Nat) (sched : Nat → List Nat) (fuel : Nat) :
    List Nat × List Nat :=
  (cmd ++ crlf, stripCp (sendATLoopReplaceSpec sched fuel 0 []))

/-- The ignore-mode decoded accumulation after the first `k` ticks, the
reference point for the channel's stop condition. -/
def accumAT (sched : Nat → List Nat) : Nat → List Nat
  | 0 => []
  | k + 1 => accumAT sched k ++ utf8Decode false (sched k)

/-! ## Teardown (`cleanup_ppp` / `cleanup_connection`)

The relevant observable state: the temp chat-script path held by the caller
(`None` until created), whether that file exists on disk, whether the
spawned negotiation process is alive (and whether it responds to SIGTERM),
and the reader's cancellation flag.  `os.remove` raises when the file is
absent, embedded as `Except`; both teardown routines guard it with
`os.path.exists`.  The advisory `poff`/`pkill` calls have their errors
swallowed (`stderr=DEVNULL`, return code unchecked) and at most kill the
same process again.
-/

/-- Observable system state for the teardown routines. -/
structure SysState where
  tmpPath : Option String
  tmpExists : Bool
  procAlive : Bool
  sigtermWorks : Bool
  stopSet : Bool
deriving DecidableEq, Repr

/-- `os.remove(tmp_chat_path)`: raises `FileNotFoundError` when absent. -/
def osRemove (s : SysState) : Except String SysState :=
  if s.tmpExists then Except.ok { s with tmpExists := false }
  else Except.error "FileNotFoundError"

/-- The guarded SIGTERM-then-kill block of `cleanup_ppp` lines 311-318:
if the process is still running, send SIGTERM, wait, and force-kill if it
is still alive; exceptions are swallowed by the `try`. -/
def killBlock (s : SysState) : SysState :=
  if s.procAlive then
    let s1 := if s.sigtermWorks then { s with procAlive := false } else s
    if s1.procAlive then { s1 with procAlive := false } else s1
  else s

/-- `cleanup_ppp(process, tmp_chat_path, stop_event)` of
`GPRS_Internet_1.py` lines 305-328: set the cancellation flag, terminate
the process, run the advisory `poff`/`pkill` cleanup, and remove the temp
file when the path is set and the file exists.  The result carries the
number of `os.remove` calls made. -/
def cleanup_ppp (s : SysState) : Except String (SysState × Nat) :=
  let s1 := { s with stopSet := true }
  let s2 := killBlock s1
  match s2.tmpPath with
  | none => Except.ok (s2, 0)
  | some _ =>
    if s2.tmpExists then
      match osRemove s2 with
      | Except.ok s3 => Except.ok (s3, 1)
      | Except.error e => Except.error e
    else Except.ok (s2, 0)

/-- `cleanup_connection()` of `GPRS_Internet_Service_1.py` lines 321-331:
`poff -a` and `pkill pppd` (killing any negotiation process), then the same
guarded temp-file removal. -/
def cleanup_connection (s : SysState) : Except String (SysState × Nat) :=
  let s1 := { s with procAlive := false }
  match s1.tmpPath with
  | none => Except.ok (s1, 0)
  | some _ =>
    if s1.tmpExists then
      match osRemove s1 with
      | Except.ok s2 => Except.ok (s2, 1)
      | Except.error e => Except.error e
    else Except.ok (s1, 0)

/-- The exit paths of a negotiation attempt named by the claim: success
followed by teardown (`__main__` `finally`), negotiation failure
(`start_ppp` line 253 / `__main__` failure branch of the service variant),
and forced shutdown (the service variant's `signal_handler`, which calls
`cleanup_connection` before exiting). -/
inductive ExitPath : Type
  | successTeardown
  | negotiationFailure
  | forcedShutdown
deriving DecidableEq, Repr

/-- What each exit path runs. -/
def runExitPath : ExitPath → SysState → Except String (SysState × Nat)
  | ExitPath.successTeardown, s => cleanup_ppp s
  | ExitPath.negotiationFailure, s => cleanup_ppp s
  | ExitPath.forcedShutdown, s => cleanup_connection s

/-! ## `initialize_modem` of `GPRS_Internet_1.py` (lines 52-150)

The serial environment is an oracle `atResp` from the ordinal number of the
AT command sent to its response, with `none` meaning a transport exception
raised during that command.  The whole body is inside `try`; `except`
prints and returns `False` without touching the port, so the error value of
the embedded `Except` carries the port state at raise time.  The result is
`(success, port still open on return)`.
-/

/-- Environment of one bring-up attempt. -/
structure MEnv where
  openOk : Bool
  atResp : Nat → Option String

/-- Running bring-up state: commands sent so far and port status. -/
structure MSt where
  idx : Nat
  serOpen : Bool
deriving DecidableEq, Repr

/-- One `send_at_command` transaction: consumes a command slot; a `none`
oracle entry is a transport exception propagating to the outer handler. -/
def sendM (env : MEnv) (s : MSt) : Except MSt (String × MSt) :=
  match env.atResp s.idx with
  | none => Except.error { s with idx := s.idx + 1 }
  | some r => Except.ok (r, { s with idx := s.idx + 1 })

/-- The registration-wait loop (lines 93-107) inside `initialize_modem`:
polls `AT+CREG?` while elapsed time is below `maxWait`, sleeping 2 seconds
between polls.  Fuel is instantiated with `maxWait`. -/
def cregLoopM (env : MEnv) (maxWait : Nat) : Nat → Nat → MSt → Except MSt (Bool × MSt)
  | 0, _, s => Except.ok (false, s)
  | fuel + 1, t, s =>
    if t < maxWait then
      match sendM env s with
      | Except.error s' => Except.error s'
      | Except.ok (r, s') =>
        if isRegisteredResp r then Except.ok (true, s')
        else cregLoopM env maxWait fuel (t + 2) s'
    else Except.ok (false, s)

/-- The attach-confirm loop (lines 121-131): at most `n` polls of
`AT+CGATT?`, breaking on an attached response. -/
def cgattLoopM (env : MEnv) : Nat → MSt → Except MSt (Bool × MSt)
  | 0, s => Except.ok (false, s)
  | n + 1, s =>
    match sendM env s with
    | Except.error s' => Except.error s'
    | Except.ok (r, s') =>
      if isAttachedResp r then Except.ok (true, s')
      else cgattLoopM env n s'

/-- `initialize_modem(device, max_wait)`: open the port, send `ATZ`, `ATE0`,
`AT+CSQ` (response only logged), wait for registration (closing the port
and failing on timeout), send `AT+CGATT=1`, confirm attachment over at most
10 polls (closing and failing on exhaustion), query the operator, close the
port and succeed.  An exception anywhere lands in the `except` block of
lines 148-150, which returns `False` **without closing the port**. -/
def initializeModem (env : MEnv) (maxWait : Nat) : Bool × Bool :=
  if env.openOk = false then (false, false)
  else
    match sendM env { idx := 0, serOpen := true } with
    | Except.error s => (false, s.serOpen)
    | Except.ok (_, s1) =>
    match sendM env s1 with
    | Except.error s => (false, s.serOpen)
    | Except.ok (_, s2) =>
    match sendM env s2 with
    | Except.error s => (false, s.serOpen)
    | Except.ok (_, s3) =>
    match cregLoopM env maxWait maxWait 0 s3 with
    | Except.error s => (false, s.serOpen)
    | Except.ok (false, _) => (false, false)
    | Except.ok (true, s4) =>
    match sendM env s4 with
    | Except.error s => (false, s.serOpen)
    | Except.ok (_, s5) =>
    match cgattLoopM env 10 s5 with
    | Except.error s => (false, s.serOpen)
    | Except.ok (false, _) => (false, false)
    | Except.ok (true, s6) =>
    match sendM env s6 with
    | Except.error s => (false, s.serOpen)
    | Except.ok (_, _) => (true, false)

/-! ## `initialize_modem` of `GPRS_Internet_Service_1.py` (lines 179-241)
and the monitor loop (lines 357-390)

For the snapshot-lifecycle claim the embedding additionally records an
event trace: each AT transaction, each registration / attach poll, the one
`get_signal_strength_at_init` call, and each monitor tick.  The result
carries the `last_signal_info` global as of return.
-/

/-- Trace events of the service variant. -/
inductive SvcEvent : Type
  | atCmd
  | sigCapture
  | cregPoll
  | cgattPoll
  | monitorTick
deriving DecidableEq, Repr

/-- Is the event anything other than a registration poll?  (Used to state
that the capture happens before the first registration poll.) -/
def notCregPoll : SvcEvent → Bool
  | SvcEvent.cregPoll => false
  | _ => true

/-- A `(rssi-or-None, quality, icon)` triple. -/
abbrev SigInfo : Type := Option Int × String × String

/-- Module-level initialiser of `last_signal_info` (line 15). -/
def initSignalInfo : SigInfo := (none, unknownStr, iconQ)

/-- Environment of one service-variant bring-up. -/
structure SvcEnv where
  openOk : Bool
  sigEnv : SigEnv
  atResp : Nat → Option String

/-- Result of the service-variant bring-up. -/
structure SvcInitResult where
  ok : Bool
  serOpen : Bool
  lastSignal : SigInfo
  trace : List SvcEvent
deriving Repr

/-- Registration-wait loop of lines 200-208: polls `AT+CREG?` (command slot
`idx`) while elapsed time is below `maxWait`, sleeping 5 seconds between
polls; the `while`'s `else` clause (no registration) is the `ok false`
outcome.  Errors are transport exceptions; both outcomes carry the next
command slot and how many polls were made. -/
def svcCregLoop (env : SvcEnv) (maxWait : Nat) :
    Nat → Nat → Nat → Except (Nat × Nat) (Bool × Nat × Nat)
  | 0, _, idx => Except.ok (false, idx, 0)
  | fuel + 1, t, idx =>
    if t < maxWait then
      match env.atResp idx with
      | none => Except.error (idx + 1, 1)
      | some r =>
        if isRegisteredResp r then Except.ok (true, idx + 1, 1)
        else
          match svcCregLoop env maxWait fuel (t + 5) (idx + 1) with
          | Except.error (i, p) => Except.error (i, p + 1)
          | Except.ok (b, i, p) => Except.ok (b, i, p + 1)
    else Except.ok (false, idx, 0)

/-- Attach-confirm loop of lines 227-233: at most `n` polls of `AT+CGATT?`,
breaking (and closing the port, in the caller) on an attached response;
carries the poll count. -/
def svcCgattLoop (env : SvcEnv) :
    Nat → Nat → Except (Nat × Nat) (Bool × Nat × Nat)
  | 0, idx => Except.ok (false, idx, 0)
  | n + 1, idx =>
    match env.atResp idx with
    | none => Except.error (idx + 1, 1)
    | some r =>
      if isAttachedResp r then Except.ok (true, idx + 1, 1)
      else
        match svcCgattLoop env n (idx + 1) with
        | Except.error (i, p) => Except.error (i, p + 1)
        | Except.ok (b, i, p) => Except.ok (b, i, p + 1)

/-- The first three steps of the body: `ATZ`, `ATE0`, then the signal
capture into the `last_signal_info` global (line 193). -/
def svcInitPrefix : List SvcEvent :=
  [SvcEvent.atCmd, SvcEvent.atCmd, SvcEvent.sigCapture]

/-- `initialize_modem` of the service variant: `ATZ`, `ATE0`, capture the
signal snapshot via `get_signal_strength_at_init` (which opens the port
separately and never raises), wait for registration (5-second polls, close
and fail on deadline), query the operator (`AT+COPS?`, parse failures
swallowed), send `AT+CGATT=1`, confirm attachment over at most 10 polls
(success closes the port and returns `True`; exhaustion closes and fails).
An exception lands in the handler of lines 239-241, returning `False`
without closing the port; `last_signal_info` keeps whatever value the run
had assigned by then. -/
def svcInitializeModem (env : SvcEnv) (maxWait : Nat) : SvcInitResult :=
  if env.openOk = false then
    { ok := false, serOpen := false, lastSignal := initSignalInfo, trace := [] }
  else
    match env.atResp 0 with
    | none =>
      { ok := false, serOpen := true, lastSignal := initSignalInfo,
        trace := [SvcEvent.atCmd] }
    | some _ =>
    match env.atResp 1 with
    | none =>
      { ok := false, serOpen := true, lastSignal := initSignalInfo,
        trace := [SvcEvent.atCmd, SvcEvent.atCmd] }
    | some _ =>
      match svcCregLoop env maxWait maxWait 0 2 with
      | Except.error (_, p) =>
        { ok := false, serOpen := true,
          lastSignal := get_signal_strength_at_init env.sigEnv,
          trace := svcInitPrefix ++ List.replicate p SvcEvent.cregPoll }
      | Except.ok (false, _, p) =>
        { ok := false, serOpen := false,
          lastSignal := get_signal_strength_at_init env.sigEnv,
          trace := svcInitPrefix ++ List.replicate p SvcEvent.cregPoll }
      | Except.ok (true, idx1, p) =>
      match env.atResp idx1 with
      | none =>
        { ok := false, serOpen := true,
          lastSignal := get_signal_strength_at_init env.sigEnv,
          trace := svcInitPrefix ++ List.replicate p SvcEvent.cregPoll ++
            [SvcEvent.atCmd] }
      | some _ =>
      match env.atResp (idx1 + 1) with
      | none =>
        { ok := false, serOpen := true,
          lastSignal := get_signal_strength_at_init env.sigEnv,
          trace := svcInitPrefix ++ List.replicate p SvcEvent.cregPoll ++
            [SvcEvent.atCmd, SvcEvent.atCmd] }
      | some _ =>
        match svcCgattLoop env 10 (idx1 + 2) with
        | Except.error (_, q) =>
          { ok := false, serOpen := true,
            lastSignal := get_signal_strength_at_init env.sigEnv,
            trace := svcInitPrefix ++ List.replicate p SvcEvent.cregPoll ++
              [SvcEvent.atCmd, SvcEvent.atCmd] ++
              List.replicate q SvcEvent.cgattPoll }
        | Except.ok (b, _, q) =>
          { ok := b, serOpen := false,
            lastSignal := get_signal_strength_at_init env.sigEnv,
            trace := svcInitPrefix ++ List.replicate p SvcEvent.cregPoll ++
              [SvcEvent.atCmd, SvcEvent.atCmd] ++
              List.replicate q SvcEvent.cgattPoll }

/-- Per-tick inputs of the monitor loop: uptime from the process table,
interface state and counters from `ifconfig`, ping outcome.  None of these
touch the serial device. -/
structure TickEnv where
  uptime : String
  connUp : Bool
  ipAddr : String
  rxBytes : Nat
  txBytes : Nat
  pingOk : Bool
  pingMs : String

/-- One rendered status line (the arguments of `print_status_line`). -/
structure StatusLine where
  signal : SigInfo
  uptime : String
  ipAddr : String
  rxBytes : Nat
  txBytes : Nat
  pingOk : Bool

/-- One iteration of the monitor loop (lines 357-390): gather uptime,
connection stats and ping, and render a line whose signal column is the
**cached** `last_signal_info`; the tick emits no AT command and leaves the
cached snapshot untouched. -/
def monitorTick (sig : SigInfo) (e : TickEnv) : StatusLine × List SvcEvent :=
  ({ signal := sig,
     uptime := e.uptime,
     ipAddr := if e.connUp then e.ipAddr else "Disconnected",
     rxBytes := e.rxBytes,
     txBytes := e.txBytes,
     pingOk := e.pingOk },
   [SvcEvent.monitorTick])

/-- Run the monitor for a list of tick inputs, threading the cached
snapshot; returns the rendered lines, the events, and the cached snapshot
as of exit. -/
def monitorRun (sig : SigInfo) : List TickEnv → List StatusLine × List SvcEvent × SigInfo
  | [] => ([], [], sig)
  | e :: es =>
    let t := monitorTick sig e
    let r := monitorRun sig es
    (t.1 :: r.1, t.2 ++ r.2.1, r.2.2)

/-! ## Concrete inputs used by witnesses and counterexamples -/

/-- A modem response carrying a good signal quality. -/
def csqGoodResp : String := "+CSQ: 18,0 OK"

/-- A `searching` registration response. -/
def searchingResp : String := "+CREG: 0,2 OK"

/-- A registered-home-network response. -/
def homeResp : String := "+CREG: 0,1 OK"

/-- An attached response. -/
def attachedResp : String := "+CGATT: 1 OK"

/-- A bare `OK` response (confirms neither registration nor attachment). -/
def plainOk : String := "OK"

/-- Oracle that is registered exactly at elapsed second 2: visible to a
2-second poller, invisible to a 5-second poller. -/
def respRegAt2 : Nat → String := fun t => if t == 2 then homeResp else searchingResp

/-- Oracle that is registered exactly at elapsed second 5. -/
def respRegAt5 : Nat → String := fun t => if t == 5 then homeResp else searchingResp

/-- Oracle that is always registered. -/
def respAlwaysReg : Nat → String := fun _ => homeResp

/-- Oracle that always answers a bare `OK`. -/
def respAllPlain : Nat → String := fun _ => plainOk

/-- A pppd line establishing the link. -/
def connLine : String := "Connect: ppp0"

/-- A pathological pppd line carrying both an LCP-failure token and an
IP-assignment token. -/
def mixedLine : String := "LCP: timeout local  IP address"

/-- A plain LCP-timeout line. -/
def lcpLine : String := "LCP: timeout"

/-- Event sequence: link up, then the pathological mixed line. -/
def evsC2 : List PppEvent := [PppEvent.line connLine, PppEvent.line mixedLine]

/-- The bytes of the command string `AT`. -/
def atCmdBytes : List Nat := [65, 84]

/-- Serial schedule delivering an invalid byte followed by `OK` at the first
tick, then nothing. -/
def schedNoise : Nat → List Nat := fun i => if i == 0 then [255, 79, 75] else []

/-- Serial schedule delivering a clean `OK` at the first tick. -/
def schedOkOnly : Nat → List Nat := fun i => if i == 0 then [79, 75] else []

/-- Bring-up environment whose first AT transaction raises a transport
exception after the port opened. -/
def envRaise : MEnv := { openOk := true, atResp := fun _ => none }

/-- Bring-up environment that registers at the first `AT+CREG?` poll
(command slot 3) but never confirms attachment. -/
def envAttachFail : MEnv :=
  { openOk := true, atResp := fun i => some (if i == 3 then homeResp else plainOk) }

/-- Bring-up environment that never registers. -/
def envNeverReg : MEnv := { openOk := true, atResp := fun _ => some searchingResp }

/-- Service-variant environment: good signal at capture time, but the
network never registers, so bring-up fails. -/
def envSigNoReg : SvcEnv :=
  { openOk := true,
    sigEnv := { openOk := true, errMsg := "", response := csqGoodResp },
    atResp := fun _ => some searchingResp }

/-- Service-variant environment for a fully successful bring-up: registered
at the first `AT+CREG?` poll (slot 2), attached at the first `AT+CGATT?`
poll (slot 5). -/
def envSvcHappy : SvcEnv :=
  { openOk := true,
    sigEnv := { openOk := true, errMsg := "", response := csqGoodResp },
    atResp := fun i =>
      some (if i == 2 then homeResp else if i == 5 then attachedResp else plainOk) }

/-- Service-variant environment that never registers but with the same
successful capture, used to compare against `envSvcHappy`. -/
def envSvcNoReg : SvcEnv :=
  { openOk := true,
    sigEnv := { openOk := true, errMsg := "", response := csqGoodResp },
    atResp := fun _ => some searchingResp }

/-- A teardown state as it stands right after the chat script was created
and pppd spawned. -/
def stateAfterSpawn : SysState :=
  { tmpPath := some "/tmp/tmpchat", tmpExists := true, procAlive := true,
    sigtermWorks := true, stopSet := false }

/-- One sample tick input for the monitor loop. -/
def tickEnvSample : TickEnv :=
  { uptime := "00:03:45", connUp := true, ipAddr := "100.91.2.107",
    rxBytes := 5877, txBytes := 5958, pingOk := true, pingMs := "45.2ms" }

/-- The bucket boundaries asserted by the spec for one reading, phrased
against the source classification function. -/
abbrev SignalBucketSpec (r : Int) : Prop :=
  (r = 99 → classifySignal r = (some r, noSignalStr, iconX)) ∧
  (r ≠ 99 → r < 10 → classifySignal r = (some r, poorStr, iconWarn)) ∧
  (10 ≤ r → r < 15 → classifySignal r = (some r, fairStr, iconGear)) ∧
  (15 ≤ r → r < 20 → classifySignal r = (some r, goodStr, iconCheck)) ∧
  (r ≠ 99 → 20 ≤ r → classifySignal r = (some r, excellentStr, iconCheck2))

/-! ## Claim C1 : signal-bucket boundaries -/

/-- C1: for every signal-quality reading in [0,31] ∪ ｛99｝ the bucket
classification of `get_signal_strength_at_init` is the stated total
deterministic function of the reading: 99 → no-signal, < 10 → poor,
10-14 → fair, 15-19 → good, ≥ 20 → excellent; in particular 9 → poor,
10 → fair, 14 → fair, 15 → good, 19 → good, 20 → excellent. -/
theorem c1_signal_buckets :
    (∀ r : Int, ((0 ≤ r ∧ r ≤ 31) ∨ r = 99) → SignalBucketSpec r) ∧
    classifySignal 9 = (some 9, poorStr, iconWarn) ∧
    classifySignal 10 = (some 10, fairStr, iconGear) ∧
    classifySignal 14 = (some 14, fairStr, iconGear) ∧
    classifySignal 15 = (some 15, goodStr, iconCheck) ∧
    classifySignal 19 = (some 19, goodStr, iconCheck) ∧
    classifySignal 20 = (some 20, excellentStr, iconCheck2) ∧
    classifySignal 99 = (some 99, noSignalStr, iconX) := by
  refine ⟨?_, by decide, by decide, by decide, by decide, by decide, by decide, by decide⟩
  intro r _hdom
  refine ⟨?_, ?_, ?_, ?_, ?_⟩
  · rintro rfl; decide
  · intro h99 h10
    unfold classifySignal
    rw [if_neg h99, if_pos h10]
  · intro h10 h15
    unfold classifySignal
    rw [if_neg (by omega : ¬r = 99), if_neg (by omega : ¬r < 10), if_pos h15]
  · intro h15 h20
    unfold classifySignal
    rw [if_neg (by omega : ¬r = 99), if_neg (by omega : ¬r < 10),
      if_neg (by omega : ¬r < 15), if_pos h20]
  · intro h99 h20
    unfold classifySignal
    rw [if_neg h99, if_neg (by omega : ¬r < 10), if_neg (by omega : ¬r < 15),
      if_neg (by omega : ¬r < 20)]

/-- C1 witness: the boundary conditions instantiated at reading 10. -/
theorem c1_signal_buckets_witness :
    (((0 : Int) ≤ 10 ∧ (10 : Int) ≤ 31) ∨ (10 : Int) = 99) ∧ SignalBucketSpec 10 :=
  ⟨by decide, c1_signal_buckets.1 10 (by decide)⟩

/-! ## Claim C10 : totality beyond the documented domain, and the sentinel -/

/-- C10: the classification is total over all integers: every reading ≥ 20
other than 99 — including values above the documented maximum 31, such as
45 — is classified Excellent; and whenever the port cannot be opened, the
response carries no `+CSQ:` tag, or the quality field does not parse, the
function returns a sentinel tuple with `rssi = None` (quality an error
description or Unknown) instead of raising. -/
theorem c10_total_and_sentinel :
    (∀ r : Int, r ≠ 99 → 20 ≤ r → classifySignal r = (some r, excellentStr, iconCheck2)) ∧
    classifySignal 45 = (some 45, excellentStr, iconCheck2) ∧
    (∀ env : SigEnv, env.openOk = false →
      get_signal_strength_at_init env = sigError env.errMsg ∧
      (get_signal_strength_at_init env).1 = none) ∧
    (∀ env : SigEnv, strHas env.response csqTag = false →
      (get_signal_strength_at_init env).1 = none) ∧
    (∀ env : SigEnv, parseCsq env.response = none →
      (get_signal_strength_at_init env).1 = none) := by
  refine ⟨?_, by decide, ?_, ?_, ?_⟩
  · intro r h99 h20
    unfold classifySignal
    rw [if_neg h99, if_neg (by omega), if_neg (by omega), if_neg (by omega)]
  · intro env h
    unfold get_signal_strength_at_init
    rw [if_pos h]
    exact ⟨rfl, rfl⟩
  · intro env h
    unfold get_signal_strength_at_init
    by_cases ho : env.openOk = false
    · rw [if_pos ho]; rfl
    · rw [if_neg ho, if_neg (by simp [h])]
  · intro env h
    unfold get_signal_strength_at_init
    by_cases ho : env.openOk = false
    · rw [if_pos ho]; rfl
    · rw [if_neg ho]
      by_cases ht : strHas env.response csqTag = true
      · rw [if_pos ht, h]
        rfl
      · rw [if_neg ht]

/-- C10 witness: instantiated at reading 45 and at an environment whose
response carries no `+CSQ:` tag. -/
theorem c10_total_and_sentinel_witness :
    ((45 : Int) ≠ 99 ∧ (20 : Int) ≤ 45 ∧
      classifySignal 45 = (some 45, excellentStr, iconCheck2)) ∧
    (strHas plainOk csqTag = false ∧
      (get_signal_strength_at_init
        { openOk := true, errMsg := "", response := plainOk }).1 = none) :=
  ⟨⟨by decide, by decide, c10_total_and_sentinel.1 45 (by decide) (by decide)⟩,
   ⟨by decide, c10_total_and_sentinel.2.2.2.1
      { openOk := true, errMsg := "", response := plainOk } (by decide)⟩⟩

/-! ## Claim C3 : registration wait -/

/-- Helper: the 2-second registration wait with a 60-second deadline exits
with elapsed time at most 60, from any even start time below the deadline. -/
theorem regWaitAux_bound (resp : Nat → String) :
    ∀ fuel t, t ≤ 60 → t % 2 = 0 → (regWaitAux resp 60 fuel t).2 ≤ 60 := by
  intro fuel
  induction fuel with
  | zero => intro t ht _; simpa [regWaitAux] using ht
  | succ n ih =>
    intro t ht hp
    unfold regWaitAux
    by_cases h1 : t < 60
    · rw [if_pos h1]
      by_cases h2 : isRegisteredResp (resp t) = true
      · rw [if_pos h2]; exact ht
      · rw [if_neg h2]; exact ih (t + 2) (by omega) (by omega)
    · rw [if_neg h1]; exact ht

/-- Helper: same bound for the service variant's 5-second wait, from any
start time that is a multiple of 5. -/
theorem svcRegWaitAux_bound (resp : Nat → String) :
    ∀ fuel t, t ≤ 60 → t % 5 = 0 → (svcRegWaitAux resp 60 fuel t).2 ≤ 60 := by
  intro fuel
  induction fuel with
  | zero => intro t ht _; simpa [svcRegWaitAux] using ht
  | succ n ih =>
    intro t ht hp
    unfold svcRegWaitAux
    by_cases h1 : t < 60
    · rw [if_pos h1]
      by_cases h2 : isRegisteredResp (resp t) = true
      · rw [if_pos h2]; exact ht
      · rw [if_neg h2]; exact ih (t + 5) (by omega) (by omega)
    · rw [if_neg h1]; exact ht

/-- Helper: with no registered response ever, the 2-second wait runs to the
60-second deadline exactly. -/
theorem regWaitAux_expire (resp : Nat → String)
    (hn : ∀ t, isRegisteredResp (resp t) = false) :
    ∀ fuel t, t ≤ 60 → t % 2 = 0 → 60 - t ≤ 2 * fuel →
      regWaitAux resp 60 fuel t = (false, 60) := by
  intro fuel
  induction fuel with
  | zero =>
    intro t ht _ hf
    have : t = 60 := by omega
    subst this
    rfl
  | succ n ih =>
    intro t ht hp hf
    unfold regWaitAux
    by_cases h1 : t < 60
    · rw [if_pos h1, if_neg (by simp [hn t])]
      exact ih (t + 2) (by omega) (by omega) (by omega)
    · rw [if_neg h1]
      have : t = 60 := by omega
      subst this
      rfl

/-- Helper: with no registered response ever, the 5-second wait runs to the
60-second deadline exactly. -/
theorem svcRegWaitAux_expire (resp : Nat → String)
    (hn : ∀ t, isRegisteredResp (resp t) = false) :
    ∀ fuel t, t ≤ 60 → t % 5 = 0 → 60 - t ≤ 5 * fuel →
      svcRegWaitAux resp 60 fuel t = (false, 60) := by
  intro fuel
  induction fuel with
  | zero =>
    intro t ht _ hf
    have : t = 60 := by omega
    subst this
    rfl
  | succ n ih =>
    intro t ht hp hf
    unfold svcRegWaitAux
    by_cases h1 : t < 60
    · rw [if_pos h1, if_neg (by simp [hn t])]
      exact ih (t + 5) (by omega) (by omega) (by omega)
    · rw [if_neg h1]
      have : t = 60 := by omega
      subst this
      rfl

/-- C3 counterexample: the claim asserts a fixed 2-second poll interval for
the registration wait of both sources.  `GPRS_Internet_1.py` does poll every
2 seconds and catches a registration that is visible only at elapsed second
2, but the embedded loop of `GPRS_Internet_Service_1.py` lines 200-208
sleeps 5 seconds between polls: it misses that same registration and runs
to the deadline, while catching one visible at second 5. -/
theorem c3_registration_counterexample :
    regWait 60 respRegAt2 = (true, 2) ∧
    svcRegWait 60 respRegAt2 = (false, 60) ∧
    svcRegWait 60 respRegAt5 = (true, 5) := by decide

/-- C3 (amended): the registration wait polls at a fixed interval — 2
seconds in `GPRS_Internet_1.py`, 5 seconds in the service variant — and in
both variants terminates successfully immediately upon a registered
response (`+CREG: 0,1` or `+CREG: 0,5`), never exceeds the default
60-second deadline, returns failure at exactly the deadline when no
registered response ever arrives, and on expiry bring-up closes the serial
channel and reports failure. -/
theorem c3_registration_wait :
    (∀ (resp : Nat → String) (maxWait t fuel : Nat),
        t < maxWait → isRegisteredResp (resp t) = true →
        regWaitAux resp maxWait (fuel + 1) t = (true, t) ∧
        svcRegWaitAux resp maxWait (fuel + 1) t = (true, t)) ∧
    (∀ (resp : Nat → String) (maxWait t fuel : Nat),
        t < maxWait → isRegisteredResp (resp t) = false →
        regWaitAux resp maxWait (fuel + 1) t = regWaitAux resp maxWait fuel (t + 2) ∧
        svcRegWaitAux resp maxWait (fuel + 1) t = svcRegWaitAux resp maxWait fuel (t + 5)) ∧
    (∀ resp : Nat → String, (regWait 60 resp).2 ≤ 60 ∧ (svcRegWait 60 resp).2 ≤ 60) ∧
    (∀ resp : Nat → String, (∀ t, isRegisteredResp (resp t) = false) →
        regWait 60 resp = (false, 60) ∧ svcRegWait 60 resp = (false, 60)) ∧
    initializeModem envNeverReg 60 = (false, false) ∧
    (svcInitializeModem envSvcNoReg 60).ok = false ∧
    (svcInitializeModem envSvcNoReg 60).serOpen = false := by
  refine ⟨?_, ?_, ?_, ?_, by decide, by decide, by decide⟩
  · intro resp maxWait t fuel h1 h2
    constructor
    · unfold regWaitAux; rw [if_pos h1, if_pos h2]
    · unfold svcRegWaitAux; rw [if_pos h1, if_pos h2]
  · intro resp maxWait t fuel h1 h2
    constructor
    · conv_lhs => unfold regWaitAux
      rw [if_pos h1, if_neg (by simp [h2])]
    · conv_lhs => unfold svcRegWaitAux
      rw [if_pos h1, if_neg (by simp [h2])]
  · intro resp
    exact ⟨regWaitAux_bound resp 60 0 (by omega) (by omega),
      svcRegWaitAux_bound resp 60 0 (by omega) (by omega)⟩
  · intro resp hn
    exact ⟨regWaitAux_expire resp hn 60 0 (by omega) (by omega) (by omega),
      svcRegWaitAux_expire resp hn 60 0 (by omega) (by omega) (by omega)⟩

/-- C3 witness: immediate success instantiated with an always-registered
oracle at elapsed time 0. -/
theorem c3_registration_wait_witness :
    (0 < 60 ∧ isRegisteredResp (respAlwaysReg 0) = true) ∧
    regWaitAux respAlwaysReg 60 60 0 = (true, 0) ∧
    svcRegWaitAux respAlwaysReg 60 60 0 = (true, 0) :=
  ⟨⟨by decide, by decide⟩, c3_registration_wait.1 respAlwaysReg 60 0 59 (by decide) (by decide)⟩

/-! ## Claim C4 : attach confirm -/

/-- C4: the attach-confirm step polls `AT+CGATT?` at a fixed 2-second
interval for at most 10 attempts; it succeeds immediately on a `+CGATT: 1`
response, and with 10 unsuccessful attempts it deterministically fails
(elapsed time 20 = 10 polls spaced 2 seconds apart), whereupon bring-up
closes the serial channel and returns failure. -/
theorem c4_attach_confirm :
    (∀ (resp : Nat → String) (t n : Nat), isAttachedResp (resp t) = true →
        attachLoop resp (n + 1) t = (true, t)) ∧
    (∀ (resp : Nat → String) (t n : Nat), isAttachedResp (resp t) = false →
        attachLoop resp (n + 1) t = attachLoop resp n (t + 2)) ∧
    (∀ resp : Nat → String, (∀ k, k < 10 → isAttachedResp (resp (2 * k)) = false) →
        attachConfirm resp = (false, 20)) ∧
    initializeModem envAttachFail 60 = (false, false) := by
  refine ⟨?_, ?_, ?_, by decide⟩
  · intro resp t n h
    unfold attachLoop; rw [if_pos h]
  · intro resp t n h
    conv_lhs => unfold attachLoop
    rw [if_neg (by simp [h])]
  · intro resp h
    have h0 : isAttachedResp (resp 0) = false := by simpa using h 0 (by omega)
    have h2 : isAttachedResp (resp 2) = false := by simpa using h 1 (by omega)
    have h4 : isAttachedResp (resp 4) = false := by simpa using h 2 (by omega)
    have h6 : isAttachedResp (resp 6) = false := by simpa using h 3 (by omega)
    have h8 : isAttachedResp (resp 8) = false := by simpa using h 4 (by omega)
    have h10 : isAttachedResp (resp 10) = false := by simpa using h 5 (by omega)
    have h12 : isAttachedResp (resp 12) = false := by simpa using h 6 (by omega)
    have h14 : isAttachedResp (resp 14) = false := by simpa using h 7 (by omega)
    have h16 : isAttachedResp (resp 16) = false := by simpa using h 8 (by omega)
    have h18 : isAttachedResp (resp 18) = false := by simpa using h 9 (by omega)
    simp [attachConfirm, attachLoop, h0, h2, h4, h6, h8, h10, h12, h14, h16, h18]

/-- C4 witness: retry exhaustion instantiated with an oracle that always
answers a bare `OK`. -/
theorem c4_attach_confirm_witness :
    (∀ k, k < 10 → isAttachedResp (respAllPlain (2 * k)) = false) ∧
    attachConfirm respAllPlain = (false, 20) :=
  ⟨by decide, c4_attach_confirm.2.2.1 respAllPlain (by decide)⟩

/-! ## Claim C5 : the chat-script temp file is removed on every exit path -/

/-- Helper: the SIGTERM-then-kill block always leaves the process dead and
touches nothing else. -/
theorem killBlock_eq (s : SysState) : killBlock s = { s with procAlive := false } := by
  obtain ⟨tp, te, pa, sw, ss⟩ := s
  cases pa <;> cases sw <;> simp [killBlock]

/-- C5: once the chat-script temporary file has been created (the session
holds its path), every exit path of a negotiation attempt — success
followed by teardown, negotiation failure, and forced shutdown through the
signal handler — completes its teardown without error and leaves the temp
file removed. -/
theorem c5_tmpfile_removed_on_exit :
    ∀ (p : String) (s : SysState), s.tmpPath = some p →
      ∀ path : ExitPath, ∃ s' n, runExitPath path s = Except.ok (s', n) ∧
        s'.tmpExists = false := by
  intro p s hp path
  obtain ⟨tp, te, pa, sw, ss⟩ := s
  simp only [SysState.tmpPath] at hp
  subst hp
  cases path <;> cases te <;> cases pa <;> cases sw <;> exact ⟨_, _, rfl, rfl⟩

/-- C5 witness: the state right after spawn, torn down through the
success path. -/
theorem c5_tmpfile_removed_on_exit_witness :
    stateAfterSpawn.tmpPath = some "/tmp/tmpchat" ∧
    ∃ s' n, runExitPath ExitPath.successTeardown stateAfterSpawn = Except.ok (s', n) ∧
      s'.tmpExists = false :=
  ⟨rfl, c5_tmpfile_removed_on_exit "/tmp/tmpchat" stateAfterSpawn rfl
    ExitPath.successTeardown⟩

/-! ## Claim C6 : teardown is idempotent -/

/-- C6: for every process handle and temp-file state, each teardown routine
succeeds (raises no error), and running it a second time in succession
returns the same state unchanged with zero `os.remove` calls — the second
invocation never attempts to delete the already-removed temp file. -/
theorem c6_teardown_idempotent :
    ∀ s : SysState,
      (∃ s1 n1, cleanup_ppp s = Except.ok (s1, n1) ∧
        cleanup_ppp s1 = Except.ok (s1, 0)) ∧
      (∃ s1 n1, cleanup_connection s = Except.ok (s1, n1) ∧
        cleanup_connection s1 = Except.ok (s1, 0)) := by
  intro s
  obtain ⟨tp, te, pa, sw, ss⟩ := s
  constructor
  · cases tp <;> cases te <;> cases pa <;> cases sw <;> cases ss <;> exact ⟨_, _, rfl, rfl⟩
  · cases tp <;> cases te <;> cases pa <;> cases sw <;> cases ss <;> exact ⟨_, _, rfl, rfl⟩

/-- C6 witness: double teardown from the post-spawn state. -/
theorem c6_teardown_idempotent_witness :
    ∃ s1 n1, cleanup_ppp stateAfterSpawn = Except.ok (s1, n1) ∧
      cleanup_ppp s1 = Except.ok (s1, 0) :=
  (c6_teardown_idempotent stateAfterSpawn).1

/-! ## Claim C8 : clean state on fatal failure -/

/-- Helper: with a total response oracle every AT transaction completes. -/
theorem sendM_ok (env : MEnv) (h : ∀ n, (env.atResp n).isSome = true) (s : MSt) :
    ∃ r s', sendM env s = Except.ok (r, s') := by
  cases hv : env.atResp s.idx with
  | none =>
    have hs := h s.idx
    rw [hv] at hs
    simp at hs
  | some r => exact ⟨r, { s with idx := s.idx + 1 }, by simp [sendM, hv]⟩

/-- Helper: with a total response oracle the registration loop completes
without raising. -/
theorem cregLoopM_ok (env : MEnv) (h : ∀ n, (env.atResp n).isSome = true)
    (maxWait : Nat) :
    ∀ fuel t s, ∃ b s', cregLoopM env maxWait fuel t s = Except.ok (b, s') := by
  intro fuel
  induction fuel with
  | zero => intro t s; exact ⟨false, s, rfl⟩
  | succ n ih =>
    intro t s
    by_cases h1 : t < maxWait
    · obtain ⟨r, s', hv⟩ := sendM_ok env h s
      by_cases h2 : isRegisteredResp r = true
      · exact ⟨true, s', by simp [cregLoopM, h1, hv, h2]⟩
      · obtain ⟨b, s'', hrec⟩ := ih (t + 2) s'
        exact ⟨b, s'', by simp [cregLoopM, h1, hv, h2, hrec]⟩
    · exact ⟨false, s, by simp [cregLoopM, h1]⟩

/-- Helper: with a total response oracle the attach loop completes without
raising. -/
theorem cgattLoopM_ok (env : MEnv) (h : ∀ n, (env.atResp n).isSome = true) :
    ∀ fuel s, ∃ b s', cgattLoopM env fuel s = Except.ok (b, s') := by
  intro fuel
  induction fuel with
  | zero => intro s; exact ⟨false, s, rfl⟩
  | succ n ih =>
    intro s
    obtain ⟨r, s', hv⟩ := sendM_ok env h s
    by_cases h2 : isAttachedResp r = true
    · exact ⟨true, s', by simp [cgattLoopM, hv, h2]⟩
    · obtain ⟨b, s'', hrec⟩ := ih s'
      exact ⟨b, s'', by simp [cgattLoopM, hv, h2, hrec]⟩

/-- C8 counterexample: the claim asserts the serial channel is closed on
**every** fatal bring-up exit including the exception path.  In
`GPRS_Internet_1.py` the `except` block of lines 148-150 returns `False`
without closing the port: with the port opened and the very first AT
transaction raising a transport exception, bring-up fails with the channel
still open. -/
theorem c8_exception_counterexample : initializeModem envRaise 60 = (false, true) := by
  decide

/-- C8 (amended): provided no transport exception is raised, every fatal
bring-up exit (registration timeout, attach-retry exhaustion) and the
success exit leave the serial channel closed — the exception path of lines
148-150 is the one fatal exit that leaves it open — and the teardown
routine invoked on every negotiation-failure exit always leaves the spawned
process terminated (SIGTERM, then force-kill if still running). -/
theorem c8_clean_state_on_failure :
    (∀ (env : MEnv) (maxWait : Nat), (∀ n, (env.atResp n).isSome = true) →
        (initializeModem env maxWait).2 = false) ∧
    (∀ s : SysState, ∃ s' n, cleanup_ppp s = Except.ok (s', n) ∧
        s'.procAlive = false) := by
  constructor
  · intro env maxWait h
    by_cases ho : env.openOk = false
    · simp [initializeModem, ho]
    · obtain ⟨r1, s1, h1⟩ := sendM_ok env h { idx := 0, serOpen := true }
      obtain ⟨r2, s2, h2⟩ := sendM_ok env h s1
      obtain ⟨r3, s3, h3⟩ := sendM_ok env h s2
      obtain ⟨b4, s4, h4⟩ := cregLoopM_ok env h maxWait maxWait 0 s3
      obtain ⟨r5, s5, h5⟩ := sendM_ok env h s4
      obtain ⟨b6, s6, h6⟩ := cgattLoopM_ok env h 10 s5
      obtain ⟨r7, s7, h7⟩ := sendM_ok env h s6
      cases b4 <;> cases b6 <;>
        simp [initializeModem, ho, h1, h2, h3, h4, h5, h6, h7]
  · intro s
    obtain ⟨tp, te, pa, sw, ss⟩ := s
    cases tp <;> cases te <;> cases pa <;> cases sw <;> cases ss <;> exact ⟨_, _, rfl, rfl⟩

/-- C8 witness: a registration-timeout failure with a total oracle leaves
the channel closed. -/
theorem c8_clean_state_on_failure_witness :
    (∀ n, (envNeverReg.atResp n).isSome = true) ∧
    (initializeModem envNeverReg 60).2 = false :=
  ⟨fun _ => rfl, c8_clean_state_on_failure.1 envNeverReg 60 (fun _ => rfl)⟩

/-! ## Claim C2 : negotiation-output classification -/

/-- Helper: the flags at loop exit are exactly the initial flags joined
with whether a link-up / IP-assignment line occurs among the consumed
events. -/
theorem pppMonitorLoop_flags :
    ∀ (fuel : Nat) (evs : List PppEvent) (c ip : Bool),
      (pppMonitorLoop fuel evs c ip).1 =
        (c || (pppMonitorLoop fuel evs c ip).2.any evConnect,
         ip || (pppMonitorLoop fuel evs c ip).2.any evIp) := by
  intro fuel
  induction fuel with
  | zero => intro evs c ip; simp [pppMonitorLoop]
  | succ n ih =>
    intro evs c ip
    cases evs with
    | nil => simp [pppMonitorLoop]
    | cons e rest =>
      cases e with
      | line s =>
        by_cases hip : isIpLine s = true
        · simp [pppMonitorLoop, hip, evConnect, evIp]
        · by_cases hl : isLcpFailLine s = true
          · simp [pppMonitorLoop, hip, hl, evConnect, evIp]
          · by_cases hs : isScriptFailLine s = true
            · simp [pppMonitorLoop, hip, hl, hs, evConnect, evIp]
            · simp [pppMonitorLoop, hip, hl, hs, evConnect, evIp,
                ih rest (c || isConnectLine s) ip, Bool.or_assoc]
      | emptyPoll exited =>
        cases exited with
        | true => simp [pppMonitorLoop, evConnect, evIp]
        | false => simp [pppMonitorLoop, evConnect, evIp, ih rest c ip]

/-- C2 counterexample: the claim asserts a line containing `LCP: timeout`
ends the wait as a failure.  In the source the IP-assignment test of line
231 breaks (successfully) **before** the LCP test of line 236 is reached,
so a line carrying both tokens, arriving after a link-up line, makes the
attempt succeed. -/
theorem c2_negotiation_counterexample :
    isLcpFailLine mixedLine = true ∧
    pppOutcome 5 evsC2 = true ∧
    (pppMonitorLoop 5 evsC2 false false).2 = evsC2 := by decide

/-- C2 (amended): within the 90-second deadline, the wait succeeds iff both
a link-up line (`Connect: ppp0`) and an IP-assignment line (`local  IP
address` / `remote IP address`) occur among the consumed events; a line
containing `LCP: timeout`, `LCP terminated` or `Connect script failed`
**and no IP-assignment token** (IP matching takes precedence) ends the wait
as failure immediately, consuming no further lines; a `queue.Empty` poll
with the process exited ends the wait as failure immediately; and hitting
the deadline without both flags is a failure. -/
theorem c2_negotiation_classification :
    (∀ (fuel : Nat) (evs : List PppEvent),
        pppOutcome fuel evs = true ↔
        ((pppMonitorLoop fuel evs false false).2.any evConnect = true ∧
         (pppMonitorLoop fuel evs false false).2.any evIp = true)) ∧
    (∀ (s : String) (rest : List PppEvent) (fuel : Nat) (c : Bool),
        isIpLine s = false → (isLcpFailLine s || isScriptFailLine s) = true →
        pppMonitorLoop (fuel + 1) (PppEvent.line s :: rest) c false =
          ((c || isConnectLine s, false), [PppEvent.line s])) ∧
    (∀ (rest : List PppEvent) (fuel : Nat) (c : Bool),
        pppMonitorLoop (fuel + 1) (PppEvent.emptyPoll true :: rest) c false =
          ((c, false), [PppEvent.emptyPoll true])) ∧
    (∀ (evs : List PppEvent) (c : Bool),
        pppMonitorLoop 0 evs c false = ((c, false), [])) := by
  refine ⟨?_, ?_, ?_, ?_⟩
  · intro fuel evs
    have hf := pppMonitorLoop_flags fuel evs false false
    show ((pppMonitorLoop fuel evs false false).1.1 &&
        (pppMonitorLoop fuel evs false false).1.2) = true ↔ _
    rw [hf]
    simp
  · intro s rest fuel c hip hfail
    rcases (by simpa using hfail :
        isLcpFailLine s = true ∨ isScriptFailLine s = true) with hl | hs
    · simp [pppMonitorLoop, hip, hl]
    · by_cases hl2 : isLcpFailLine s = true
      · simp [pppMonitorLoop, hip, hl2]
      · simp [pppMonitorLoop, hip, hl2, hs]
  · intro rest fuel c
    simp [pppMonitorLoop]
  · intro evs c
    simp [pppMonitorLoop]

/-- C2 witness: a plain LCP-timeout line ends the wait immediately as a
failure. -/
theorem c2_negotiation_classification_witness :
    (isIpLine lcpLine = false ∧ (isLcpFailLine lcpLine || isScriptFailLine lcpLine) = true) ∧
    pppMonitorLoop 4 [PppEvent.line lcpLine] false false =
      ((false || isConnectLine lcpLine, false), [PppEvent.line lcpLine]) :=
  ⟨⟨by decide, by decide⟩,
   c2_negotiation_classification.2.1 lcpLine [] 3 false (by decide) (by decide)⟩

/-! ## Claim C7 : the AT channel -/

/-- Helper: one accumulation step. -/
theorem accumAT_succ (sched : Nat → List Nat) (k : Nat) :
    accumAT sched (k + 1) = accumAT sched k ++ utf8Decode false (sched k) := rfl

/-- Helper: the accumulation loop started at tick `i` on the buffer
accumulated so far stops at the first tick whose buffer contains `OK` or
`ERROR`, or after its fuel elapses, and returns exactly the buffer
accumulated up to that point. -/
theorem sendATLoop_accum (sched : Nat → List Nat) :
    ∀ (fuel i : Nat), hasRespTok (accumAT sched i) = false →
      ∃ k, i ≤ k ∧ k ≤ i + fuel ∧
        sendATLoop sched fuel i (accumAT sched i) = accumAT sched k ∧
        (∀ j, i ≤ j → j < k → hasRespTok (accumAT sched j) = false) ∧
        (hasRespTok (accumAT sched k) = true ∨ k = i + fuel) := by
  intro fuel
  induction fuel with
  | zero =>
    intro i hi
    exact ⟨i, Nat.le_refl i, by omega, rfl,
      fun j h1 h2 => absurd h2 (by omega), Or.inr rfl⟩
  | succ n ih =>
    intro i hi
    by_cases he : (sched i).isEmpty = true
    · have hstep : accumAT sched (i + 1) = accumAT sched i := by
        rw [accumAT_succ, List.isEmpty_iff.mp he,
          show utf8Decode false [] = [] from rfl, List.append_nil]
      obtain ⟨k, hk1, hk2, hk3, hk4, hk5⟩ := ih (i + 1) (by rw [hstep]; exact hi)
      rw [hstep] at hk3
      refine ⟨k, by omega, by omega, ?_, ?_, ?_⟩
      · conv_lhs => unfold sendATLoop
        rw [if_pos he]
        exact hk3
      · intro j hj1 hj2
        rcases Nat.eq_or_lt_of_le hj1 with rfl | hj3
        · exact hi
        · exact hk4 j hj3 hj2
      · rcases hk5 with h | h
        · exact Or.inl h
        · exact Or.inr (by omega)
    · by_cases ht : hasRespTok (accumAT sched i ++ utf8Decode false (sched i)) = true
      · refine ⟨i + 1, by omega, by omega, ?_, ?_,
          Or.inl (by rw [accumAT_succ]; exact ht)⟩
        · conv_lhs => unfold sendATLoop
          rw [if_neg he, if_pos ht]
          exact (accumAT_succ sched i).symm
        · intro j hj1 hj2
          have : j = i := by omega
          subst this
          exact hi
      · have hi' : hasRespTok (accumAT sched (i + 1)) = false := by
          rw [accumAT_succ]
          exact (Bool.not_eq_true _).mp ht
        obtain ⟨k, hk1, hk2, hk3, hk4, hk5⟩ := ih (i + 1) hi'
        rw [accumAT_succ] at hk3
        refine ⟨k, by omega, by omega, ?_, ?_, ?_⟩
        · conv_lhs => unfold sendATLoop
          rw [if_neg he, if_neg ht]
          exact hk3
        · intro j hj1 hj2
          rcases Nat.eq_or_lt_of_le hj1 with rfl | hj3
          · exact hi
          · exact hk4 j hj3 hj2
        · rcases hk5 with h | h
          · exact Or.inl h
          · exact Or.inr (by omega)

/-- C7 counterexample: the claim (after §4.1 of the spec) asserts the
channel decodes raw bytes by **replacing** invalid sequences.  Both sources
decode with `errors='ignore'`: an invalid `0xFF` byte in front of `OK` is
silently dropped, where the replace-mode channel modelled from the spec
would yield a U+FFFD replacement codepoint. -/
theorem c7_decode_counterexample :
    (send_at_command atCmdBytes schedNoise 3).2 = [79, 75] ∧
    (sendAtCommandReplaceSpec atCmdBytes schedNoise 3).2 = [replacementCp, 79, 75] ∧
    (send_at_command atCmdBytes schedNoise 3).2 ≠
      (sendAtCommandReplaceSpec atCmdBytes schedNoise 3).2 := by decide

/-- C7 (amended): for every command, serial schedule and timeout, the
channel writes the command exactly once terminated by CRLF, accumulates
incoming bytes decoded with `errors='ignore'` (invalid byte sequences
dropped, not a failure) until the buffer contains the literal token `OK` or
`ERROR` or the tick fuel (timeout) elapses — whichever happens first — and
returns that accumulated buffer trimmed of surrounding whitespace, with no
retry. -/
theorem c7_at_channel :
    ∀ (cmd : List Nat) (sched : Nat → List Nat) (fuel : Nat),
      (send_at_command cmd sched fuel).1 = cmd ++ crlf ∧
      ∃ k, k ≤ fuel ∧
        (send_at_command cmd sched fuel).2 = stripCp (accumAT sched k) ∧
        (∀ j, j < k → hasRespTok (accumAT sched j) = false) ∧
        (hasRespTok (accumAT sched k) = true ∨ k = fuel) := by
  intro cmd sched fuel
  refine ⟨rfl, ?_⟩
  have h0 : hasRespTok (accumAT sched 0) = false := rfl
  obtain ⟨k, hk1, hk2, hk3, hk4, hk5⟩ := sendATLoop_accum sched fuel 0 h0
  refine ⟨k, by omega, ?_, fun j hj => hk4 j (by omega) hj, ?_⟩
  · exact congrArg stripCp hk3
  · rcases hk5 with h | h
    · exact Or.inl h
    · exact Or.inr (by omega)

/-- C7 witness: the channel applied to a clean `OK` schedule. -/
theorem c7_at_channel_witness :
    (send_at_command atCmdBytes schedOkOnly 3).1 = atCmdBytes ++ crlf :=
  (c7_at_channel atCmdBytes schedOkOnly 3).1

/-! ## Claim C9 : the SignalSnapshot lifecycle -/

/-- Helper: a replicated registration poll contributes no capture events. -/
theorem count_sigCapture_replicate_creg (n : Nat) :
    (List.replicate n SvcEvent.cregPoll).count SvcEvent.sigCapture = 0 := by
  rw [List.count_eq_zero]
  intro h
  exact absurd (List.eq_of_mem_replicate h) (by decide)

/-- Helper: a replicated attach poll contributes no capture events. -/
theorem count_sigCapture_replicate_cgatt (n : Nat) :
    (List.replicate n SvcEvent.cgattPoll).count SvcEvent.sigCapture = 0 := by
  rw [List.count_eq_zero]
  intro h
  exact absurd (List.eq_of_mem_replicate h) (by decide)

/-- Helper: the capture event sits before the first registration poll in
any trace that starts with the bring-up prefix. -/
theorem sigCapture_mem_takeWhile (l : List SvcEvent) :
    SvcEvent.sigCapture ∈ (svcInitPrefix ++ l).takeWhile notCregPoll := by
  have h : (svcInitPrefix ++ l).takeWhile notCregPoll =
      SvcEvent.atCmd :: SvcEvent.atCmd :: SvcEvent.sigCapture ::
        l.takeWhile notCregPoll := rfl
  rw [h]
  simp

/-- Helper: every bring-up attempt that reaches the signal-check step (the
port opened and the `ATZ`/`ATE0` transactions completed) has a trace of the
form prefix-plus-capture-free-tail and caches the captured snapshot,
whatever happens afterwards (registration timeout, transport exception,
attach failure, or success). -/
theorem svcInit_capture (env : SvcEnv) (maxWait : Nat)
    (hopen : env.openOk = true) (ha0 : (env.atResp 0).isSome = true)
    (ha1 : (env.atResp 1).isSome = true) :
    ∃ l, (svcInitializeModem env maxWait).trace = svcInitPrefix ++ l ∧
      l.count SvcEvent.sigCapture = 0 ∧
      (svcInitializeModem env maxWait).lastSignal =
        get_signal_strength_at_init env.sigEnv := by
  have ho : ¬env.openOk = false := by simp [hopen]
  cases h0 : env.atResp 0 with
  | none => rw [h0] at ha0; simp at ha0
  | some r0 =>
  cases h1 : env.atResp 1 with
  | none => rw [h1] at ha1; simp at ha1
  | some r1 =>
  cases hc : svcCregLoop env maxWait maxWait 0 2 with
  | error e =>
    obtain ⟨i, p⟩ := e
    exact ⟨List.replicate p SvcEvent.cregPoll,
      by simp [svcInitializeModem, ho, h0, h1, hc],
      count_sigCapture_replicate_creg p,
      by simp [svcInitializeModem, ho, h0, h1, hc]⟩
  | ok v =>
  obtain ⟨b, i, p⟩ := v
  cases b with
  | false =>
    exact ⟨List.replicate p SvcEvent.cregPoll,
      by simp [svcInitializeModem, ho, h0, h1, hc],
      count_sigCapture_replicate_creg p,
      by simp [svcInitializeModem, ho, h0, h1, hc]⟩
  | true =>
  cases h2 : env.atResp i with
  | none =>
    exact ⟨List.replicate p SvcEvent.cregPoll ++ [SvcEvent.atCmd],
      by simp [svcInitializeModem, ho, h0, h1, hc, h2, List.append_assoc],
      by simp [List.count_append, count_sigCapture_replicate_creg, List.count_cons],
      by simp [svcInitializeModem, ho, h0, h1, hc, h2]⟩
  | some r2 =>
  cases h3 : env.atResp (i + 1) with
  | none =>
    exact ⟨List.replicate p SvcEvent.cregPoll ++ [SvcEvent.atCmd, SvcEvent.atCmd],
      by simp [svcInitializeModem, ho, h0, h1, hc, h2, h3, List.append_assoc],
      by simp [List.count_append, count_sigCapture_replicate_creg, List.count_cons],
      by simp [svcInitializeModem, ho, h0, h1, hc, h2, h3]⟩
  | some r3 =>
  cases hg : svcCgattLoop env 10 (i + 2) with
  | error e2 =>
    obtain ⟨i2, q⟩ := e2
    exact ⟨List.replicate p SvcEvent.cregPoll ++ [SvcEvent.atCmd, SvcEvent.atCmd] ++
        List.replicate q SvcEvent.cgattPoll,
      by simp [svcInitializeModem, ho, h0, h1, hc, h2, h3, hg, List.append_assoc],
      by simp [List.count_append, count_sigCapture_replicate_creg,
        count_sigCapture_replicate_cgatt, List.count_cons],
      by simp [svcInitializeModem, ho, h0, h1, hc, h2, h3, hg]⟩
  | ok v2 =>
    obtain ⟨b2, i2, q⟩ := v2
    exact ⟨List.replicate p SvcEvent.cregPoll ++ [SvcEvent.atCmd, SvcEvent.atCmd] ++
        List.replicate q SvcEvent.cgattPoll,
      by simp [svcInitializeModem, ho, h0, h1, hc, h2, h3, hg, List.append_assoc],
      by simp [List.count_append, count_sigCapture_replicate_creg,
        count_sigCapture_replicate_cgatt, List.count_cons],
      by simp [svcInitializeModem, ho, h0, h1, hc, h2, h3, hg]⟩

/-- C9 counterexample: the claim says the snapshot is captured at the end
of **successful** bring-up.  In the source the capture happens on line 193,
before the registration wait: a run whose network never registers fails
bring-up yet has already captured (and cached) the snapshot, and the
capture event sits before the first registration poll. -/
theorem c9_capture_counterexample :
    (svcInitializeModem envSigNoReg 60).ok = false ∧
    (svcInitializeModem envSigNoReg 60).trace.count SvcEvent.sigCapture = 1 ∧
    SvcEvent.sigCapture ∈
      (svcInitializeModem envSigNoReg 60).trace.takeWhile notCregPoll ∧
    (svcInitializeModem envSigNoReg 60).lastSignal = (some 18, goodStr, iconCheck) := by
  decide

/-- C9 (amended): the snapshot is captured exactly once per bring-up
attempt that reaches the signal-check step (the port opened and the
reset/echo-off transactions completed) — early in bring-up, before the
first registration poll, whether or not bring-up ultimately succeeds — at
most once on any run, and is then held immutable: every monitor tick
renders the cached snapshot, never re-queries the radio (no capture
event), and leaves the cached value unchanged. -/
theorem c9_snapshot_lifecycle :
    (∀ (env : SvcEnv) (maxWait : Nat),
        (svcInitializeModem env maxWait).trace.count SvcEvent.sigCapture ≤ 1 ∧
        (env.openOk = true → (env.atResp 0).isSome = true →
          (env.atResp 1).isSome = true →
          (svcInitializeModem env maxWait).trace.count SvcEvent.sigCapture = 1 ∧
          SvcEvent.sigCapture ∈
            (svcInitializeModem env maxWait).trace.takeWhile notCregPoll ∧
          (svcInitializeModem env maxWait).lastSignal =
            get_signal_strength_at_init env.sigEnv)) ∧
    (∀ (sig : SigInfo) (ticks : List TickEnv),
        (monitorRun sig ticks).2.2 = sig ∧
        (monitorRun sig ticks).2.1.count SvcEvent.sigCapture = 0 ∧
        ∀ l ∈ (monitorRun sig ticks).1, l.signal = sig) := by
  constructor
  · intro env maxWait
    constructor
    · by_cases ho : env.openOk = false
      · simp [svcInitializeModem, ho]
      · cases h0 : env.atResp 0 with
        | none => simp [svcInitializeModem, ho, h0, List.count_cons]
        | some r0 =>
        cases h1 : env.atResp 1 with
        | none => simp [svcInitializeModem, ho, h0, h1, List.count_cons]
        | some r1 =>
          obtain ⟨l, htr, hcnt, _⟩ := svcInit_capture env maxWait
            (by simp at ho; exact ho) (by rw [h0]; rfl) (by rw [h1]; rfl)
          rw [htr]
          simp [svcInitPrefix, List.count_append, List.count_cons, hcnt]
    · intro hopen ha0 ha1
      obtain ⟨l, htr, hcnt, hsig⟩ := svcInit_capture env maxWait hopen ha0 ha1
      refine ⟨?_, ?_, hsig⟩
      · rw [htr]
        simp [svcInitPrefix, List.count_append, List.count_cons, hcnt]
      · rw [htr]
        exact sigCapture_mem_takeWhile l
  · intro sig ticks
    induction ticks with
    | nil =>
      refine ⟨rfl, rfl, ?_⟩
      intro l hl
      simp [monitorRun] at hl
    | cons e es ih =>
      obtain ⟨ih1, ih2, ih3⟩ := ih
      refine ⟨?_, ?_, ?_⟩
      · simpa [monitorRun, monitorTick] using ih1
      · simp [monitorRun, monitorTick, List.count_cons, ih2]
      · intro l hl
        simp only [monitorRun, List.mem_cons] at hl
        rcases hl with rfl | hl
        · rfl
        · exact ih3 l hl

/-- C9 witness: a fully successful bring-up reaches the signal-check step,
captures once before the first registration poll, and caches the snapshot. -/
theorem c9_snapshot_lifecycle_witness :
    (envSvcHappy.openOk = true ∧ (envSvcHappy.atResp 0).isSome = true ∧
      (envSvcHappy.atResp 1).isSome = true) ∧
    ((svcInitializeModem envSvcHappy 60).trace.count SvcEvent.sigCapture = 1 ∧
      SvcEvent.sigCapture ∈
        (svcInitializeModem envSvcHappy 60).trace.takeWhile notCregPoll ∧
      (svcInitializeModem envSvcHappy 60).lastSignal =
        get_signal_strength_at_init envSvcHappy.sigEnv) :=
  ⟨⟨rfl, rfl, rfl⟩,
   (c9_snapshot_lifecycle.1 envSvcHappy 60).2 rfl rfl rfl⟩

end IOTGprs
